import Mathlib

/-!
Shallow embedding of `src/src/main.cpp` (FluidNC_Status): a GRBL status LED
indicator.  The UART receive queue is modelled as a `List Char` of the bytes
currently available; `millis()` is passed in as a `Nat` parameter `now`;
stored timestamps are 32-bit, so elapsed time is computed with wraparound
subtraction `sub32`.  The NeoPixel bus is modelled by the 24-bit colour value
each write would send.
-/

set_option maxRecDepth 8192

namespace FluidNCStatus

/-- Parsed GRBL states used to drive the LED (enum `Status` in main.cpp). -/
inductive Status where
  | BOOTED
  | IDLE
  | RUN
  | HOLD
  | JOG
  | DOOR
  | HOME
  | ALARM
  | UNKNOWN
deriving DecidableEq, Repr

/-- `COL_RED` 0xff0000. -/
def COL_RED : Nat := 0xff0000

/-- `COL_ORA` 0xff5f00. -/
def COL_ORA : Nat := 0xff5f00

/-- `COL_YEL` 0xffcf00. -/
def COL_YEL : Nat := 0xffcf00

/-- `COL_GRN` 0x00ff00. -/
def COL_GRN : Nat := 0x00ff00

/-- `COL_CYA` 0x007fff. -/
def COL_CYA : Nat := 0x007fff

/-- `COL_PUR` 0xff00ff. -/
def COL_PUR : Nat := 0xff00ff

/-- `BLINK_INTERVAL` (ms): startup blink period before BOOTED is seen. -/
def BLINK_INTERVAL : Nat := 250

/-- `REQUEST_TIMEOUT_MS` (ms): if no status for this long, send "?\n". -/
def REQUEST_TIMEOUT_MS : Nat := 5000

/-- `MAX_PARSE_LEN`: size of the static `lineBuf` array. -/
def MAX_PARSE_LEN : Nat := 25

/-- `MSG_BOOTED` message literal. -/
def MSG_BOOTED : List Char := "[MSG:INFO: Connected".toList

/-- `MSG_IDLE` message literal. -/
def MSG_IDLE : List Char := "<Idle".toList

/-- `MSG_RUN` message literal. -/
def MSG_RUN : List Char := "<Run".toList

/-- `MSG_HOLD` message literal. -/
def MSG_HOLD : List Char := "<Hold".toList

/-- `MSG_JOG` message literal. -/
def MSG_JOG : List Char := "<Jog".toList

/-- `MSG_DOOR` message literal. -/
def MSG_DOOR : List Char := "<Door".toList

/-- `MSG_HOME` message literal. -/
def MSG_HOME : List Char := "<Home".toList

/-- `MSG_ALARM` message literal. -/
def MSG_ALARM : List Char := "<Alarm".toList

/-- `showStatus` (main.cpp:175-187): the colour `setColor` would be given for a
status; `none` for the `default` case (no change). -/
def showStatus : Status → Option Nat
  | Status.BOOTED => some COL_GRN
  | Status.IDLE => some COL_GRN
  | Status.RUN => some COL_CYA
  | Status.HOLD => some COL_YEL
  | Status.JOG => some COL_PUR
  | Status.DOOR => some COL_ORA
  | Status.HOME => some COL_PUR
  | Status.ALARM => some COL_RED
  | Status.UNKNOWN => none

/-- `strncmp(buf, msg, strlen(msg)) == 0` for a NUL-free `msg`: every byte of
`msg` equals the corresponding byte of `buf`; comparison fails if `buf` ends
(its NUL terminator) before `msg` is exhausted. -/
def msgMatch : List Char → List Char → Bool
  | [], _ => true
  | _ :: _, [] => false
  | m :: ms, c :: cs => if m = c then msgMatch ms cs else false

/-- The end-of-line classification step of `parse_status` (main.cpp:230-251):
`lineBuf` holds the stored bytes of the completed line.  `lineBuf[0] == '\0'`
is the empty C string check (the stored bytes contain no NUL unless one was
received; no table entry starts with NUL, so a leading received NUL classifies
`UNKNOWN` on either reading). -/
def classify (lineBuf : List Char) : Status :=
  if lineBuf.headD '\x00' = '\x00' then Status.UNKNOWN
  else if msgMatch MSG_BOOTED lineBuf then Status.BOOTED
  else if msgMatch MSG_IDLE lineBuf then Status.IDLE
  else if msgMatch MSG_RUN lineBuf then Status.RUN
  else if msgMatch MSG_HOLD lineBuf then Status.HOLD
  else if msgMatch MSG_JOG lineBuf then Status.JOG
  else if msgMatch MSG_DOOR lineBuf then Status.DOOR
  else if msgMatch MSG_HOME lineBuf then Status.HOME
  else if msgMatch MSG_ALARM lineBuf then Status.ALARM
  else Status.UNKNOWN

/-- `parse_status` (main.cpp:220-262).  `rx` is the queue of bytes currently
available from the UART, `lineBuf` the static line buffer (its length is the
static cursor `idx`).  Returns the status of the first completed line (or
`UNKNOWN` if no line completes), the bytes left unread in the UART queue, and
the new buffer contents.  CR is skipped; LF terminates and classifies the
buffered line and resets the cursor; other bytes are stored only while
`idx < sizeof(lineBuf) - 1`, else silently dropped. -/
def parse_status : List Char → List Char → Status × List Char × List Char
  | [], lineBuf => (Status.UNKNOWN, [], lineBuf)
  | c :: rx, lineBuf =>
    if c = '\r' then parse_status rx lineBuf
    else if c = '\n' then (classify lineBuf, rx, [])
    else if lineBuf.length < MAX_PARSE_LEN - 1 then parse_status rx (lineBuf ++ [c])
    else parse_status rx lineBuf

/-- The file-scope mutable state of main.cpp (lines 265-270) together with the
static locals of `parse_status`. -/
structure State where
  seenBooted : Bool
  lastShown : Status
  lastBlinkToggleMs : Nat
  blinkPhase : Bool
  lastKnownStatusMs : Nat
  lastRequestMs : Nat
  lineBuf : List Char
deriving DecidableEq, Repr

/-- 32-bit wraparound subtraction `(uint32_t)(a - b)`, for `a, b < 2^32`. -/
def sub32 (a b : Nat) : Nat := (a + 2 ^ 32 - b) % 2 ^ 32

/-- The observable effects of one `loop` tick: the colour written by the
status-display path, the bytes written to the UART by the liveness poll, and
the colour written by the pre-boot blinker. -/
structure TickOut where
  statusWrite : Option Nat
  txBytes : List Char
  blinkWrite : Option Nat
deriving DecidableEq, Repr

/-- The classification-handling block of `loop` (main.cpp:301-318): returns
the updated state and the colour written by `showStatus`, if any. -/
def statusHandle (st : Status) (now : Nat) (s : State) : State × Option Nat :=
  if st ≠ Status.UNKNOWN then
    if st = Status.BOOTED then
      let s1 := { s with seenBooted := true, lastKnownStatusMs := now, lastRequestMs := now }
      if st ≠ s1.lastShown then ({ s1 with lastShown := st }, showStatus st)
      else (s1, none)
    else if s.seenBooted then
      let s1 := { s with lastKnownStatusMs := now }
      if st ≠ s1.lastShown then ({ s1 with lastShown := st }, showStatus st)
      else (s1, none)
    else (s, none)
  else (s, none)

/-- The liveness-poll block of `loop` (main.cpp:321-325): if at least
`REQUEST_TIMEOUT_MS` elapsed since `lastKnownStatusMs` and since
`lastRequestMs`, write `"?\n"` and set `lastRequestMs` to now. -/
def livenessCheck (now : Nat) (s : State) : State × List Char :=
  if REQUEST_TIMEOUT_MS ≤ sub32 now s.lastKnownStatusMs ∧
      REQUEST_TIMEOUT_MS ≤ sub32 now s.lastRequestMs then
    ({ s with lastRequestMs := now }, "?\n".toList)
  else (s, [])

/-- The pre-boot blink block of `loop` (main.cpp:328-335). -/
def blinkHandle (now : Nat) (s : State) : State × Option Nat :=
  if s.seenBooted = false then
    if BLINK_INTERVAL ≤ sub32 now s.lastBlinkToggleMs then
      let p := !s.blinkPhase
      ({ s with blinkPhase := p, lastBlinkToggleMs := now },
       some (if p then COL_PUR else COL_RED))
    else (s, none)
  else (s, none)

/-- One tick of `loop` (main.cpp:295-336): parse, handle the classification,
run the liveness check, then the blinker.  Returns the new state, the bytes
left unread in the UART queue, and the tick's observable effects. -/
def loop (now : Nat) (rx : List Char) (s : State) : State × List Char × TickOut :=
  let pr := parse_status rx s.lineBuf
  let s0 := { s with lineBuf := pr.2.2 }
  let h1 := statusHandle pr.1 now s0
  let h2 := livenessCheck now h1.1
  let h3 := blinkHandle now h2.1
  (h3.1, pr.2.1, { statusWrite := h1.2, txBytes := h2.2, blinkWrite := h3.2 })

/-- The state after `setup` (main.cpp:277-290), with `millis()` equal to
`t0`: all statics zero-initialised except `lastBlinkToggleMs := t0`. -/
def init (t0 : Nat) : State :=
  { seenBooted := false
    lastShown := Status.UNKNOWN
    lastBlinkToggleMs := t0
    blinkPhase := false
    lastKnownStatusMs := 0
    lastRequestMs := 0
    lineBuf := [] }

/-- Run a sequence of ticks, each a `millis()` value and the fresh bytes that
arrived since the previous tick; bytes a tick leaves unread stay pending in
the UART queue for the next tick. -/
def runTicks : List (Nat × List Char) → State → List Char → State × List Char
  | [], s, pending => (s, pending)
  | (now, fresh) :: ts, s, pending =>
    let r := loop now (pending ++ fresh) s
    runTicks ts r.1 r.2.1

/-! Helper lemmas about the embedded operations. -/

lemma parse_line : ∀ (line rest buf : List Char), '\n' ∉ line → '\r' ∉ line →
    buf.length + line.length ≤ MAX_PARSE_LEN - 1 →
    parse_status (line ++ '\n' :: rest) buf = (classify (buf ++ line), rest, [])
  | [], rest, buf, _, _, _ => by
      simp [parse_status]
  | c :: line, rest, buf, hn, hr, hlen => by
      have hcn : c ≠ '\n' := fun h => hn (h ▸ List.mem_cons_self _ _)
      have hcr : c ≠ '\r' := fun h => hr (h ▸ List.mem_cons_self _ _)
      have hn' : '\n' ∉ line := fun h => hn (List.mem_cons_of_mem _ h)
      have hr' : '\r' ∉ line := fun h => hr (List.mem_cons_of_mem _ h)
      have hlen' : (buf ++ [c]).length + line.length ≤ MAX_PARSE_LEN - 1 := by
        simp only [List.length_append, List.length_cons, List.length_nil] at hlen ⊢
        omega
      have hblt : buf.length < MAX_PARSE_LEN - 1 := by
        simp only [List.length_cons] at hlen
        omega
      simp only [List.cons_append, parse_status, if_neg hcr, if_neg hcn, if_pos hblt, List.append_eq]
      rw [parse_line line rest (buf ++ [c]) hn' hr' hlen']
      simp


lemma parse_reset : ∀ (junk rest buf : List Char), '\n' ∉ junk →
    (parse_status (junk ++ '\n' :: rest) buf).2 = (rest, [])
  | [], rest, buf, _ => by simp [parse_status]
  | c :: junk, rest, buf, hn => by
      have hcn : c ≠ '\n' := fun h => hn (h ▸ List.mem_cons_self _ _)
      have hn' : '\n' ∉ junk := fun h => hn (List.mem_cons_of_mem _ h)
      by_cases hcr : c = '\r'
      · simp only [List.cons_append, parse_status, if_pos hcr, List.append_eq]
        exact parse_reset junk rest buf hn'
      · by_cases hblt : buf.length < MAX_PARSE_LEN - 1
        · simp only [List.cons_append, parse_status, if_neg hcr, if_neg hcn, if_pos hblt,
            List.append_eq]
          exact parse_reset junk rest (buf ++ [c]) hn'
        · simp only [List.cons_append, parse_status, if_neg hcr, if_neg hcn, if_neg hblt,
            List.append_eq]
          exact parse_reset junk rest buf hn'

lemma parse_buflen : ∀ (rx buf : List Char), buf.length ≤ MAX_PARSE_LEN - 1 →
    (parse_status rx buf).2.2.length ≤ MAX_PARSE_LEN - 1
  | [], buf, h => h
  | c :: rx, buf, h => by
      by_cases hcr : c = '\r'
      · simp only [parse_status, if_pos hcr]
        exact parse_buflen rx buf h
      · by_cases hcn : c = '\n'
        · simp only [parse_status, if_neg hcr, if_pos hcn]
          simp [MAX_PARSE_LEN]
        · by_cases hblt : buf.length < MAX_PARSE_LEN - 1
          · simp only [parse_status, if_neg hcr, if_neg hcn, if_pos hblt]
            exact parse_buflen rx (buf ++ [c]) (by simp [List.length_append]; omega)
          · simp only [parse_status, if_neg hcr, if_neg hcn, if_neg hblt]
            exact parse_buflen rx buf h

lemma parse_full : ∀ (cs rest buf : List Char), buf.length = MAX_PARSE_LEN - 1 →
    '\n' ∉ cs → '\r' ∉ cs →
    parse_status (cs ++ '\n' :: rest) buf = (classify buf, rest, [])
  | [], rest, buf, _, _, _ => by simp [parse_status]
  | c :: cs, rest, buf, hb, hn, hr => by
      have hcn : c ≠ '\n' := fun h => hn (h ▸ List.mem_cons_self _ _)
      have hcr : c ≠ '\r' := fun h => hr (h ▸ List.mem_cons_self _ _)
      have hn' : '\n' ∉ cs := fun h => hn (List.mem_cons_of_mem _ h)
      have hr' : '\r' ∉ cs := fun h => hr (List.mem_cons_of_mem _ h)
      have hblt : ¬ buf.length < MAX_PARSE_LEN - 1 := by omega
      simp only [List.cons_append, parse_status, if_neg hcr, if_neg hcn, if_neg hblt,
        List.append_eq]
      exact parse_full cs rest buf hb hn' hr'


lemma statusHandle_unknown (now : Nat) (s : State) :
    statusHandle Status.UNKNOWN now s = (s, none) := rfl

lemma statusHandle_pending (st : Status) (now : Nat) (s : State) (hb : s.seenBooted = false)
    (h1 : st ≠ Status.UNKNOWN) (h2 : st ≠ Status.BOOTED) :
    statusHandle st now s = (s, none) := by
  simp [statusHandle, hb, h1, h2]

lemma statusHandle_booted (now : Nat) (s : State) :
    statusHandle Status.BOOTED now s =
      ({ s with
          seenBooted := true
          lastKnownStatusMs := now
          lastRequestMs := now
          lastShown := Status.BOOTED },
        if s.lastShown = Status.BOOTED then none else some COL_GRN) := by
  cases s with
  | mk sb ls lb bp lk lr lbuf =>
    by_cases h : ls = Status.BOOTED
    · subst h
      simp [statusHandle]
    · have h' : Status.BOOTED ≠ ls := fun hh => h hh.symm
      simp [statusHandle, h, h', showStatus]

lemma statusHandle_seen (st : Status) (now : Nat) (s : State) (hb : s.seenBooted = true)
    (h1 : st ≠ Status.UNKNOWN) (h2 : st ≠ Status.BOOTED) :
    statusHandle st now s =
      ({ s with
          lastKnownStatusMs := now
          lastShown := st },
        if s.lastShown = st then none else showStatus st) := by
  cases s with
  | mk sb ls lb bp lk lr lbuf =>
    simp only [State.seenBooted] at hb
    subst hb
    by_cases h : ls = st
    · subst h
      simp [statusHandle, h1, h2]
    · have h' : st ≠ ls := fun hh => h hh.symm
      simp [statusHandle, h1, h2, h, h']


lemma livenessCheck_frame (now : Nat) (s : State) :
    (livenessCheck now s).1.seenBooted = s.seenBooted
    ∧ (livenessCheck now s).1.lastShown = s.lastShown
    ∧ (livenessCheck now s).1.lastKnownStatusMs = s.lastKnownStatusMs
    ∧ (livenessCheck now s).1.lastBlinkToggleMs = s.lastBlinkToggleMs
    ∧ (livenessCheck now s).1.blinkPhase = s.blinkPhase
    ∧ (livenessCheck now s).1.lineBuf = s.lineBuf := by
  simp only [livenessCheck]
  split <;> simp

lemma blinkHandle_frame (now : Nat) (s : State) :
    (blinkHandle now s).1.seenBooted = s.seenBooted
    ∧ (blinkHandle now s).1.lastShown = s.lastShown
    ∧ (blinkHandle now s).1.lastKnownStatusMs = s.lastKnownStatusMs
    ∧ (blinkHandle now s).1.lastRequestMs = s.lastRequestMs
    ∧ (blinkHandle now s).1.lineBuf = s.lineBuf := by
  simp only [blinkHandle]
  split
  · split <;> simp
  · simp

lemma statusHandle_seenBooted_mono (st : Status) (now : Nat) (s : State)
    (h : s.seenBooted = true) : (statusHandle st now s).1.seenBooted = true := by
  by_cases hu : st = Status.UNKNOWN
  · subst hu; rw [statusHandle_unknown]; exact h
  · by_cases hbo : st = Status.BOOTED
    · subst hbo; rw [statusHandle_booted]
    · rw [statusHandle_seen st now s h hu hbo]
      exact h

lemma loop_seen_mono (now : Nat) (rx : List Char) (s : State) (h : s.seenBooted = true) :
    (loop now rx s).1.seenBooted = true := by
  simp only [loop]
  rw [(blinkHandle_frame _ _).1, (livenessCheck_frame _ _).1]
  exact statusHandle_seenBooted_mono _ _ _ (by simpa using h)

lemma loop_booted_seen (now : Nat) (rx : List Char) (s : State)
    (h : (parse_status rx s.lineBuf).1 = Status.BOOTED) :
    (loop now rx s).1.seenBooted = true := by
  simp only [loop, h]
  rw [(blinkHandle_frame _ _).1, (livenessCheck_frame _ _).1, statusHandle_booted]


lemma loop_pending_frame (now : Nat) (rx : List Char) (s : State)
    (hb : s.seenBooted = false) (h : (parse_status rx s.lineBuf).1 ≠ Status.BOOTED) :
    (loop now rx s).1.lastKnownStatusMs = s.lastKnownStatusMs
    ∧ (loop now rx s).1.lastShown = s.lastShown
    ∧ (loop now rx s).2.2.statusWrite = none
    ∧ (loop now rx s).1.seenBooted = false := by
  simp only [loop]
  have hsh : statusHandle (parse_status rx s.lineBuf).1 now
      { s with lineBuf := (parse_status rx s.lineBuf).2.2 } =
      ({ s with lineBuf := (parse_status rx s.lineBuf).2.2 }, none) := by
    by_cases hu : (parse_status rx s.lineBuf).1 = Status.UNKNOWN
    · rw [hu, statusHandle_unknown]
    · exact statusHandle_pending _ _ _ (by simpa using hb) hu h
  rw [hsh]
  rw [(blinkHandle_frame _ _).2.2.1, (livenessCheck_frame _ _).2.2.1,
    (blinkHandle_frame _ _).2.1, (livenessCheck_frame _ _).2.1,
    (blinkHandle_frame _ _).1, (livenessCheck_frame _ _).1]
  simp [hb]

lemma loop_seen_contra (now : Nat) (rx : List Char) (s : State)
    (h : (loop now rx s).1.seenBooted = false) : s.seenBooted = false := by
  by_contra hc
  rw [loop_seen_mono now rx s (by simpa using hc)] at h
  exact absurd h (by decide)

lemma loop_pending_lastShown (now : Nat) (rx : List Char) (s : State)
    (hb : (loop now rx s).1.seenBooted = false) (hs : s.lastShown = Status.UNKNOWN) :
    (loop now rx s).1.lastShown = Status.UNKNOWN := by
  have hsb : s.seenBooted = false := loop_seen_contra now rx s hb
  by_cases hbo : (parse_status rx s.lineBuf).1 = Status.BOOTED
  · rw [loop_booted_seen now rx s hbo] at hb
    exact absurd hb (by decide)
  · rw [(loop_pending_frame now rx s hsb hbo).2.1]
    exact hs

lemma runTicks_seen_mono : ∀ (ticks : List (Nat × List Char)) (s : State) (pending : List Char),
    s.seenBooted = true → (runTicks ticks s pending).1.seenBooted = true
  | [], s, pending, h => h
  | (now, fresh) :: ts, s, pending, h => by
      simp only [runTicks]
      exact runTicks_seen_mono ts _ _ (loop_seen_mono now (pending ++ fresh) s h)

lemma runTicks_pending_lastShown :
    ∀ (ticks : List (Nat × List Char)) (s : State) (pending : List Char),
    (s.seenBooted = false → s.lastShown = Status.UNKNOWN) →
    (runTicks ticks s pending).1.seenBooted = false →
    (runTicks ticks s pending).1.lastShown = Status.UNKNOWN
  | [], s, pending, hinv, hp => hinv hp
  | (now, fresh) :: ts, s, pending, hinv, hp => by
      simp only [runTicks] at hp ⊢
      refine runTicks_pending_lastShown ts _ _ (fun hpend => ?_) hp
      have hsb : s.seenBooted = false := loop_seen_contra _ _ _ hpend
      exact loop_pending_lastShown _ _ _ hpend (hinv hsb)

/-! Claim theorems. -/

/-- Claim C1: for every completed, terminator-free line, if the line starts
with one of the table entries, classification returns that entry's status,
case-sensitively; a line matching no table entry, and the empty line, classify
as `UNKNOWN`. -/
theorem C1_classify_table :
    (∀ rest, classify (MSG_BOOTED ++ rest) = Status.BOOTED)
    ∧ (∀ rest, classify (MSG_IDLE ++ rest) = Status.IDLE)
    ∧ (∀ rest, classify (MSG_RUN ++ rest) = Status.RUN)
    ∧ (∀ rest, classify (MSG_HOLD ++ rest) = Status.HOLD)
    ∧ (∀ rest, classify (MSG_JOG ++ rest) = Status.JOG)
    ∧ (∀ rest, classify (MSG_DOOR ++ rest) = Status.DOOR)
    ∧ (∀ rest, classify (MSG_HOME ++ rest) = Status.HOME)
    ∧ (∀ rest, classify (MSG_ALARM ++ rest) = Status.ALARM)
    ∧ (∀ line, msgMatch MSG_BOOTED line = false ∧ msgMatch MSG_IDLE line = false ∧
        msgMatch MSG_RUN line = false ∧ msgMatch MSG_HOLD line = false ∧
        msgMatch MSG_JOG line = false ∧ msgMatch MSG_DOOR line = false ∧
        msgMatch MSG_HOME line = false ∧ msgMatch MSG_ALARM line = false →
        classify line = Status.UNKNOWN)
    ∧ classify [] = Status.UNKNOWN := by
  refine ⟨fun rest => rfl, fun rest => rfl, fun rest => rfl, fun rest => rfl, fun rest => rfl,
    fun rest => rfl, fun rest => rfl, fun rest => rfl, ?_, rfl⟩
  rintro line ⟨h1, h2, h3, h4, h5, h6, h7, h8⟩
  simp [classify, h1, h2, h3, h4, h5, h6, h7, h8]

/-- Witness for C1 at a concrete unmatched line. -/
theorem C1_classify_table_witness : classify ("ok: done".toList) = Status.UNKNOWN :=
  C1_classify_table.2.2.2.2.2.2.2.2.1 ("ok: done".toList)
    ⟨by decide, by decide, by decide, by decide, by decide, by decide, by decide, by decide⟩


/-- Claim C2 counterexample: with the two completed lines "<Idle\n" and
"<Run\n" both available, a single invocation of `parse_status` returns the
classification of the FIRST completed line (`IDLE`), not of the last one
(`RUN`); the second line is left unread in the queue, unclassified in this
invocation. -/
theorem C2_counterexample :
    parse_status ("<Idle\n<Run\n".toList) [] = (Status.IDLE, "<Run\n".toList, [])
    ∧ Status.IDLE ≠ Status.RUN := by decide

/-- Claim C2 (amended): a single invocation returns the classification of the
first completed line and stops there; the bytes after that line's terminator
stay in the transport queue with the buffer reset, and the next invocation
classifies the following line, so every line is classified, in order, across
successive invocations. -/
theorem C2_first_line_per_call (l1 l2 : List Char)
    (h1n : '\n' ∉ l1) (h1r : '\r' ∉ l1) (h2n : '\n' ∉ l2) (h2r : '\r' ∉ l2)
    (hl1 : l1.length ≤ MAX_PARSE_LEN - 1) (hl2 : l2.length ≤ MAX_PARSE_LEN - 1) :
    parse_status (l1 ++ '\n' :: (l2 ++ ['\n'])) [] = (classify l1, l2 ++ ['\n'], [])
    ∧ parse_status (l2 ++ ['\n']) [] = (classify l2, [], []) := by
  constructor
  · have h := parse_line l1 (l2 ++ ['\n']) [] h1n h1r (by simpa using hl1)
    simpa using h
  · have h := parse_line l2 [] [] h2n h2r (by simpa using hl2)
    simpa using h

/-- Witness for C2 (amended) on the two concrete lines of the counterexample. -/
theorem C2_first_line_per_call_witness :
    parse_status ("<Idle".toList ++ '\n' :: ("<Run".toList ++ ['\n'])) [] =
      (classify "<Idle".toList, "<Run".toList ++ ['\n'], [])
    ∧ parse_status ("<Run".toList ++ ['\n']) [] = (classify "<Run".toList, [], []) :=
  C2_first_line_per_call ("<Idle".toList) ("<Run".toList)
    (by decide) (by decide) (by decide) (by decide) (by decide) (by decide)

/-- Claim C3 counterexample: a completed line beginning with "Grbl" is NOT
classified as `BOOTED`: the default table of this code has no "Grbl" entry. -/
theorem C3_counterexample :
    classify ("Grbl 3.7 [FluidNC v3.7.8]".toList) = Status.UNKNOWN
    ∧ Status.UNKNOWN ≠ Status.BOOTED := by decide

/-- Claim C3 (amended): a completed line beginning with "Grbl" is classified
`UNKNOWN`; "Grbl" is not an entry of this code's prefix table, whose only
Booted entry is "[MSG:INFO: Connected". -/
theorem C3_grbl_not_in_table (rest : List Char) :
    classify ('G' :: 'r' :: 'b' :: 'l' :: rest) = Status.UNKNOWN := rfl


/-- Claim C4 counterexample: with the latch already Active, a further `BOOTED`
classification resets `lastRequestMs` to now (here 0 to 100), a timer that
ordinary post-boot status handling (here `IDLE`) leaves untouched — so the
Pending-to-Active timer resets ARE re-triggered. -/
theorem C4_counterexample :
    ({ init 0 with seenBooted := true, lastShown := Status.BOOTED } : State).seenBooted = true
    ∧ (statusHandle Status.BOOTED 100
        { init 0 with seenBooted := true, lastShown := Status.BOOTED }).1.lastRequestMs = 100
    ∧ ({ init 0 with seenBooted := true, lastShown := Status.BOOTED } : State).lastRequestMs = 0
    ∧ (statusHandle Status.IDLE 100
        { init 0 with seenBooted := true, lastShown := Status.BOOTED }).1.lastRequestMs = 0 := by
  decide

/-- Claim C4 (amended): after the latch is Active, every further `BOOTED`
classification repeats the transition's timer resets: it sets both
`lastKnownStatusMs` and `lastRequestMs` to now (and shows the colour only if
the status changed); in particular it resets `lastRequestMs`, which an
ordinary post-boot status never touches. -/
theorem C4_rebooted_repeats_timer_resets (now : Nat) (s : State) (hb : s.seenBooted = true) :
    statusHandle Status.BOOTED now s =
      ({ s with
          seenBooted := true
          lastKnownStatusMs := now
          lastRequestMs := now
          lastShown := Status.BOOTED },
        if s.lastShown = Status.BOOTED then none else some COL_GRN)
    ∧ (∀ st, st ≠ Status.UNKNOWN → st ≠ Status.BOOTED →
        (statusHandle st now s).1.lastRequestMs = s.lastRequestMs) := by
  refine ⟨statusHandle_booted now s, fun st h1 h2 => ?_⟩
  rw [statusHandle_seen st now s hb h1 h2]

/-- Witness for C4 (amended) at a concrete Active state. -/
theorem C4_rebooted_repeats_timer_resets_witness :
    (statusHandle Status.BOOTED 100 { init 0 with seenBooted := true }).1.lastRequestMs = 100
    ∧ (statusHandle Status.IDLE 100 { init 0 with seenBooted := true }).1.lastRequestMs = 0 := by
  have h := C4_rebooted_repeats_timer_resets 100 { init 0 with seenBooted := true } (by decide)
  exact ⟨by rw [h.1], h.2 Status.IDLE (by decide) (by decide)⟩


/-- Claim C5: on every tick the two-byte poll token "?\n" is emitted iff at
least `REQUEST_TIMEOUT_MS` elapsed since `lastKnownStatusMs` AND since
`lastRequestMs` (both read after this tick's status handling, which is when
the check runs), and `lastRequestMs` is then set to now; with the 5000 ms
timeout, 4999 ms of silence sends nothing, 5000 ms sends exactly one token,
and the send repeats once per window while silence continues. -/
theorem C5_liveness_poll :
    (∀ now s, ((livenessCheck now s).2 = "?\n".toList ↔
        (REQUEST_TIMEOUT_MS ≤ sub32 now s.lastKnownStatusMs ∧
          REQUEST_TIMEOUT_MS ≤ sub32 now s.lastRequestMs)))
    ∧ (∀ now s, (livenessCheck now s).1 =
        if REQUEST_TIMEOUT_MS ≤ sub32 now s.lastKnownStatusMs ∧
            REQUEST_TIMEOUT_MS ≤ sub32 now s.lastRequestMs
        then { s with lastRequestMs := now } else s)
    ∧ (∀ now rx s, (loop now rx s).2.2.txBytes =
        (livenessCheck now (statusHandle (parse_status rx s.lineBuf).1 now
          { s with lineBuf := (parse_status rx s.lineBuf).2.2 }).1).2)
    ∧ (loop 4999 [] (init 0)).2.2.txBytes = []
    ∧ (loop 5000 [] (init 0)).2.2.txBytes = "?\n".toList
    ∧ (loop 5001 [] ((loop 5000 [] (init 0)).1)).2.2.txBytes = []
    ∧ (loop 9999 [] ((loop 5000 [] (init 0)).1)).2.2.txBytes = []
    ∧ (loop 10000 [] ((loop 5000 [] (init 0)).1)).2.2.txBytes = "?\n".toList := by
  refine ⟨fun now s => ?_, fun now s => ?_, fun now rx s => rfl,
    by decide, by decide, by decide, by decide, by decide⟩
  · by_cases hc : REQUEST_TIMEOUT_MS ≤ sub32 now s.lastKnownStatusMs ∧
        REQUEST_TIMEOUT_MS ≤ sub32 now s.lastRequestMs
    · simp [livenessCheck, hc]
    · simp [livenessCheck, hc]
  · by_cases hc : REQUEST_TIMEOUT_MS ≤ sub32 now s.lastKnownStatusMs ∧
        REQUEST_TIMEOUT_MS ≤ sub32 now s.lastRequestMs
    · simp [livenessCheck, hc]
    · simp [livenessCheck, hc]


/-- Claim C6: the line-buffer cursor never exceeds capacity − 1 (24); once the
buffer is full further bytes of the current line are silently dropped (the
completed line classifies from the 24 stored bytes); the cursor is reset to
zero at the next line feed no matter how much was dropped; and the next
well-formed terminated line (here "<Idle\n") still classifies correctly. -/
theorem C6_buffer_overflow_safety :
    (∀ rx buf, buf.length ≤ MAX_PARSE_LEN - 1 →
      (parse_status rx buf).2.2.length ≤ MAX_PARSE_LEN - 1)
    ∧ (∀ buf cs rest, buf.length = MAX_PARSE_LEN - 1 → '\n' ∉ cs → '\r' ∉ cs →
      parse_status (cs ++ '\n' :: rest) buf = (classify buf, rest, []))
    ∧ (∀ junk rest buf, '\n' ∉ junk →
      (parse_status (junk ++ '\n' :: rest) buf).2 = (rest, []))
    ∧ (∀ junk buf, '\n' ∉ junk →
      (parse_status ((parse_status (junk ++ '\n' :: (MSG_IDLE ++ ['\n'])) buf).2.1)
        ((parse_status (junk ++ '\n' :: (MSG_IDLE ++ ['\n'])) buf).2.2)).1 = Status.IDLE) := by
  refine ⟨parse_buflen, fun buf cs rest hb hn hr => parse_full cs rest buf hb hn hr,
    fun junk rest buf hn => parse_reset junk rest buf hn, fun junk buf hn => ?_⟩
  have h2 := parse_reset junk (MSG_IDLE ++ ['\n']) buf hn
  have e1 : (parse_status (junk ++ '\n' :: (MSG_IDLE ++ ['\n'])) buf).2.1 =
      MSG_IDLE ++ ['\n'] := by rw [h2]
  have e2 : (parse_status (junk ++ '\n' :: (MSG_IDLE ++ ['\n'])) buf).2.2 = [] := by rw [h2]
  rw [e1, e2]
  have h3 := parse_line MSG_IDLE [] [] (by decide) (by decide) (by decide)
  rw [show MSG_IDLE ++ ['\n'] = MSG_IDLE ++ '\n' :: [] from rfl, h3]
  decide

/-- Witness for C6: a 30-byte unterminated junk line overflows the 25-byte
buffer, yet the following "<Idle" line still classifies as `IDLE`. -/
theorem C6_buffer_overflow_safety_witness :
    (parse_status
      ((parse_status ("aaaaaaaaaaaaaaaaaaaaaaaaaaaaaa".toList ++ '\n' :: (MSG_IDLE ++ ['\n'])) []).2.1)
      ((parse_status ("aaaaaaaaaaaaaaaaaaaaaaaaaaaaaa".toList ++ '\n' :: (MSG_IDLE ++ ['\n'])) []).2.2)).1
      = Status.IDLE :=
  C6_buffer_overflow_safety.2.2.2 ("aaaaaaaaaaaaaaaaaaaaaaaaaaaaaa".toList) [] (by decide)


/-- Claim C7: the boot latch `seenBooted` is false at startup, becomes true on
a tick whose classification is `BOOTED`, is preserved by every tick once true,
and hence never returns to false over any input sequence. -/
theorem C7_boot_latch_one_way :
    (∀ t0, (init t0).seenBooted = false)
    ∧ (∀ now rx s, (parse_status rx s.lineBuf).1 = Status.BOOTED →
        (loop now rx s).1.seenBooted = true)
    ∧ (∀ now rx s, s.seenBooted = true → (loop now rx s).1.seenBooted = true)
    ∧ (∀ ticks s pending, s.seenBooted = true →
        (runTicks ticks s pending).1.seenBooted = true) :=
  ⟨fun _ => rfl, fun now rx s h => loop_booted_seen now rx s h,
    fun now rx s h => loop_seen_mono now rx s h,
    fun ticks s pending h => runTicks_seen_mono ticks s pending h⟩

/-- Witness for C7: the latch turns true on a concrete boot line and survives
two further concrete ticks. -/
theorem C7_boot_latch_one_way_witness :
    (loop 0 ("[MSG:INFO: Connected to X]\n".toList) (init 0)).1.seenBooted = true
    ∧ (runTicks [(300, "ok\n".toList), (600, [])]
        ((loop 0 ("[MSG:INFO: Connected to X]\n".toList) (init 0)).1) []).1.seenBooted = true := by
  have h1 := C7_boot_latch_one_way.2.1 0 ("[MSG:INFO: Connected to X]\n".toList) (init 0) (by decide)
  exact ⟨h1, C7_boot_latch_one_way.2.2.2 [(300, "ok\n".toList), (600, [])] _ [] h1⟩


/-- Claim C8: the status-display path writes a colour only when the classified
status differs from `lastShown`, and updates `lastShown` on every applied
write; hence two consecutive identical classified statuses (handled post-boot,
or `BOOTED` itself) produce exactly one display write; `UNKNOWN` — the only
status without a colour mapping — leaves the display untouched. -/
theorem C8_display_change_suppression :
    (∀ st now s, ((statusHandle st now s).2).isSome = true →
        st ≠ s.lastShown ∧ (statusHandle st now s).1.lastShown = st)
    ∧ (∀ now s, statusHandle Status.UNKNOWN now s = (s, none))
    ∧ showStatus Status.UNKNOWN = none
    ∧ (∀ st now₁ now₂ s, (st = Status.BOOTED ∨ s.seenBooted = true) →
        st ≠ Status.UNKNOWN → st ≠ s.lastShown →
        (statusHandle st now₁ s).2 = showStatus st
        ∧ ((statusHandle st now₁ s).2).isSome = true
        ∧ (statusHandle st now₂ (statusHandle st now₁ s).1).2 = none) := by
  refine ⟨?_, fun now s => statusHandle_unknown now s, rfl, ?_⟩
  · intro st now s hw
    by_cases hu : st = Status.UNKNOWN
    · rw [hu, statusHandle_unknown] at hw
      simp at hw
    · by_cases hbo : st = Status.BOOTED
      · subst hbo
        rw [statusHandle_booted] at hw ⊢
        by_cases h : s.lastShown = Status.BOOTED
        · simp [h] at hw
        · exact ⟨fun hh => h hh.symm, rfl⟩
      · by_cases hsb : s.seenBooted = true
        · rw [statusHandle_seen st now s hsb hu hbo] at hw ⊢
          by_cases h : s.lastShown = st
          · simp [h] at hw
          · exact ⟨fun hh => h hh.symm, rfl⟩
        · rw [statusHandle_pending st now s (by simpa using hsb) hu hbo] at hw
          simp at hw
  · intro st now₁ now₂ s hon hu hshown
    by_cases hbo : st = Status.BOOTED
    · subst hbo
      have h : ¬ (s.lastShown = Status.BOOTED) := fun hh => hshown hh.symm
      have e1 := statusHandle_booted now₁ s
      rw [e1]
      refine ⟨by simp [h, showStatus], by simp [h, showStatus], ?_⟩
      show (statusHandle Status.BOOTED now₂
        ({ s with
            seenBooted := true
            lastKnownStatusMs := now₁
            lastRequestMs := now₁
            lastShown := Status.BOOTED } : State)).2 = none
      rw [statusHandle_booted]
      simp
    · have hsb : s.seenBooted = true := hon.resolve_left hbo
      have h : ¬ (s.lastShown = st) := fun hh => hshown hh.symm
      have hiss : (showStatus st).isSome = true := by
        cases st
        all_goals simp [showStatus]
        exact hu rfl
      have e1 := statusHandle_seen st now₁ s hsb hu hbo
      rw [e1]
      refine ⟨by simp [h], by simpa [h] using hiss, ?_⟩
      have e2 := statusHandle_seen st now₂
        ({ s with lastKnownStatusMs := now₁, lastShown := st } : State) (by simpa using hsb) hu hbo
      show (statusHandle st now₂
        ({ s with lastKnownStatusMs := now₁, lastShown := st } : State)).2 = none
      rw [e2]
      simp


/-- Witness for C8: post-boot, two consecutive `IDLE` classifications produce
exactly one display write. -/
theorem C8_display_change_suppression_witness :
    ((statusHandle Status.IDLE 10 { init 0 with seenBooted := true }).2).isSome = true
    ∧ (statusHandle Status.IDLE 20
        (statusHandle Status.IDLE 10 { init 0 with seenBooted := true }).1).2 = none := by
  have h := C8_display_change_suppression.2.2.2 Status.IDLE 10 20
    { init 0 with seenBooted := true } (Or.inr (by decide)) (by decide) (by decide)
  exact ⟨h.2.1, h.2.2⟩

/-- Claim C9 counterexample: while the latch is Pending, a tick classifying
the recognized non-Booted status `IDLE` does NOT leave all non-blink state
unchanged: at 5000 ms the liveness poll inside the very same tick updates
`lastRequestMs` (0 to 5000). -/
theorem C9_counterexample :
    (init 0).seenBooted = false
    ∧ (parse_status ("<Idle\n".toList) (init 0).lineBuf).1 = Status.IDLE
    ∧ (loop 5000 ("<Idle\n".toList) (init 0)).1.lastRequestMs ≠ (init 0).lastRequestMs := by
  decide

/-- Claim C9 (amended): while the latch is Pending, a recognized non-Booted
classification itself has no effect at all — the status-handling step returns
the state unchanged with no display write — so over the whole tick
`lastKnownStatusMs` and `lastShown` are unchanged and no status colour is
written; pre-boot statuses never feed `lastKnownStatusMs` (only the liveness
poll may still update `lastRequestMs`, independently of the classification). -/
theorem C9_preboot_status_ignored (st : Status) (now : Nat) (rx : List Char) (s : State)
    (hb : s.seenBooted = false) (hu : st ≠ Status.UNKNOWN) (hbo : st ≠ Status.BOOTED) :
    statusHandle st now s = (s, none)
    ∧ ((parse_status rx s.lineBuf).1 ≠ Status.BOOTED →
        (loop now rx s).1.lastKnownStatusMs = s.lastKnownStatusMs
        ∧ (loop now rx s).1.lastShown = s.lastShown
        ∧ (loop now rx s).2.2.statusWrite = none) := by
  refine ⟨statusHandle_pending st now s hb hu hbo, fun hpb => ?_⟩
  have h := loop_pending_frame now rx s hb hpb
  exact ⟨h.1, h.2.1, h.2.2.1⟩

/-- Witness for C9 (amended): a concrete Pending tick receiving "<Hold\n". -/
theorem C9_preboot_status_ignored_witness :
    statusHandle Status.IDLE 7 (init 0) = (init 0, none)
    ∧ ((loop 7 ("<Hold\n".toList) (init 0)).1.lastKnownStatusMs = (init 0).lastKnownStatusMs
      ∧ (loop 7 ("<Hold\n".toList) (init 0)).1.lastShown = (init 0).lastShown
      ∧ (loop 7 ("<Hold\n".toList) (init 0)).2.2.statusWrite = none) := by
  have h := C9_preboot_status_ignored Status.IDLE 7 ("<Hold\n".toList) (init 0)
    (by decide) (by decide) (by decide)
  exact ⟨h.1, h.2 (by decide)⟩


/-- Claim C10: pre-boot blink rendering never updates `lastShown`; from
startup, `lastShown` stays `UNKNOWN` for the whole Pending phase (any tick
sequence); hence on the Pending-to-Active transition `BOOTED` differs from
`lastShown` and the boot-indicator colour (green) is always rendered. -/
theorem C10_boot_color_always_rendered :
    (∀ now s, (blinkHandle now s).1.lastShown = s.lastShown)
    ∧ (∀ t0 ticks pending, (runTicks ticks (init t0) pending).1.seenBooted = false →
        (runTicks ticks (init t0) pending).1.lastShown = Status.UNKNOWN)
    ∧ (∀ now rx s, s.seenBooted = false → s.lastShown = Status.UNKNOWN →
        (parse_status rx s.lineBuf).1 = Status.BOOTED →
        (loop now rx s).2.2.statusWrite = some COL_GRN
        ∧ (loop now rx s).1.lastShown = Status.BOOTED) := by
  refine ⟨fun now s => (blinkHandle_frame now s).2.1,
    fun t0 ticks pending h =>
      runTicks_pending_lastShown ticks (init t0) pending (fun _ => rfl) h, ?_⟩
  intro now rx s hb hs hc
  simp only [loop, hc]
  rw [statusHandle_booted]
  constructor
  · simp [hs]
  · rw [(blinkHandle_frame _ _).2.1, (livenessCheck_frame _ _).2.1]

/-- Witness for C10: the first concrete boot line renders green. -/
theorem C10_boot_color_always_rendered_witness :
    (loop 0 ("[MSG:INFO: Connected\n".toList) (init 0)).2.2.statusWrite = some COL_GRN
    ∧ (loop 0 ("[MSG:INFO: Connected\n".toList) (init 0)).1.lastShown = Status.BOOTED :=
  C10_boot_color_always_rendered.2.2 0 ("[MSG:INFO: Connected\n".toList) (init 0)
    (by decide) (by decide) (by decide)

end FluidNCStatus
